import Mathlib

/-!
Verification of the Deliveroo scraping server (`deliveroo_server.py`).

The development shallowly embeds the module's pure logic:

* `Json` models decoded JSON documents (Python objects produced by
  `json.loads`); numbers are modelled as rationals.
* The HTTP layer (`requests`) is modelled by an oracle `Nat → HttpEvent`
  giving the outcome of each attempted GET, and `json.loads` by an oracle
  `String → Option Json` (`none` means the call raised).  BeautifulSoup's
  parse of the response body is modelled by the list of script tags of the
  document (`SoupDoc`), which is all `_get_next_data` inspects.
* Python dictionary/attribute semantics (`dict.get`, subscripting with
  `KeyError`, truthiness, `str.split`, `float(...)`) are modelled by
  executable helpers; raised exceptions are modelled with `Except PyErr`.

`get_next_data`, `search_restaurants` and `get_restaurant_menu` mirror the
three functions of the source file.
-/

/-- A decoded JSON value (the result of Python's `json.loads`).  Numbers are
modelled as rationals; Python's `int`/`float` distinction is not tracked
(the two compare equal in Python whenever their values coincide). -/
inductive Json where
  | null
  | bool (b : Bool)
  | num (q : ℚ)
  | str (s : String)
  | arr (elems : List Json)
  | obj (entries : List (String × Json))
deriving Repr, Inhabited

mutual
/-- Python `==` on decoded JSON values: structural equality. -/
def Json.beq : Json → Json → Bool
  | .null, .null => true
  | .bool x, .bool y => x == y
  | .num x, .num y => x == y
  | .str x, .str y => x == y
  | .arr xs, .arr ys => Json.beqList xs ys
  | .obj xs, .obj ys => Json.beqEntries xs ys
  | _, _ => false
/-- Elementwise `Json.beq` on lists. -/
def Json.beqList : List Json → List Json → Bool
  | [], [] => true
  | x :: xs, y :: ys => Json.beq x y && Json.beqList xs ys
  | _, _ => false
/-- Keywise and valuewise `Json.beq` on dict entry lists. -/
def Json.beqEntries : List (String × Json) → List (String × Json) → Bool
  | [], [] => true
  | (k, x) :: xs, (l, y) :: ys => k == l && Json.beq x y && Json.beqEntries xs ys
  | _, _ => false
end

/-- Python truthiness (`bool(x)`) of a decoded JSON value: `None`, `False`,
`0`, `""`, `[]` and an empty dict are falsy, everything else is truthy. -/
def pyTruthy : Json → Bool
  | .null => false
  | .bool b => b
  | .num q => decide (q ≠ 0)
  | .str s => decide (s ≠ "")
  | .arr xs => !xs.isEmpty
  | .obj xs => !xs.isEmpty

/-- A raised Python exception, by class (with an informal description; the
source only ever branches on the class, via `except KeyError` and
`except (ValueError, IndexError)`). -/
inductive PyErr where
  | keyError (key : String)
  | typeError (msg : String)
  | attributeError (msg : String)
deriving Repr

/-- Python's `str(e)` for a caught exception, as interpolated by the
source's `f"Error parsing data: {str(e)}"`.  The exact CPython message
texts are not reproduced; claims only distinguish the message heads. -/
def pyErrStr : PyErr → String
  | .keyError k => "'" ++ k ++ "'"
  | .typeError m => m
  | .attributeError m => m

/-- Python `d.get(key, dflt)`: returns the value stored under `key`, the
default if the key is absent, and raises `AttributeError` when the receiver
is not a dict (`json.loads` never produces duplicate keys in a dict, so an
association-list lookup of the first match is faithful). -/
def pyGetD (j : Json) (k : String) (dflt : Json) : Except PyErr Json :=
  match j with
  | .obj entries =>
      match entries.find? (fun e => e.1 == k) with
      | some e => .ok e.2
      | none => .ok dflt
  | .null => .error (.attributeError "NoneType object has no attribute get")
  | _ => .error (.attributeError "object has no attribute get")

/-- Python `d[key]` with a string key: `KeyError` when the key is absent
from a dict, `TypeError` when the receiver is a list, string or other
non-dict value. -/
def pySubscript (j : Json) (k : String) : Except PyErr Json :=
  match j with
  | .obj entries =>
      match entries.find? (fun e => e.1 == k) with
      | some e => .ok e.2
      | none => .error (.keyError k)
  | .arr _ => .error (.typeError "list indices must be integers or slices, not str")
  | .str _ => .error (.typeError "string indices must be integers")
  | _ => .error (.typeError "object is not subscriptable")

/-- Python `for x in j`: lists iterate elements, dicts iterate keys,
strings iterate one-character strings, and other values raise
`TypeError`. -/
def pyIter (j : Json) : Except PyErr (List Json) :=
  match j with
  | .arr xs => .ok xs
  | .obj entries => .ok (entries.map (fun e => .str e.1))
  | .str s => .ok (s.data.map (fun c => .str (String.mk [c])))
  | _ => .error (.typeError "object is not iterable")

/-- Character-list test: does the first list start with the second? -/
def charsStartWith : List Char → List Char → Bool
  | _, [] => true
  | [], _ :: _ => false
  | c :: cs, p :: ps => c == p && charsStartWith cs ps

/-- Character-list substring test: does the first list contain the second
as a contiguous run? -/
def charsContain : List Char → List Char → Bool
  | [], p => p.isEmpty
  | c :: cs, p => charsStartWith (c :: cs) p || charsContain cs p

/-- Python's substring test `pat in s`. -/
def strContains (s pat : String) : Bool := charsContain s.data pat.data

/-- Python `needle in hay` for a string needle: substring test on a string,
membership on a list, key membership on a dict, `TypeError` otherwise. -/
def pyInStr (needle : String) (hay : Json) : Except PyErr Bool :=
  match hay with
  | .str s => .ok (strContains s needle)
  | .arr xs => .ok (xs.any (fun x => Json.beq x (.str needle)))
  | .obj entries => .ok (entries.any (fun e => e.1 == needle))
  | _ => .error (.typeError "argument of type is not iterable")

/-- Python `str(v)` as interpolated by the source's f-string
`f"https://deliveroo.it{href_partial}"`.  It is exact for strings (the only
case the site data produces and the only case any claim depends on); the
rendering of the remaining cases is an inessential approximation. -/
def pyStr : Json → String
  | .null => "None"
  | .bool true => "True"
  | .bool false => "False"
  | .num q => if q.den = 1 then toString q.num else toString q
  | .str s => s
  | .arr _ => "[list]"
  | .obj _ => "dict"

/-- Python `s.split(sep)` for a one-character separator, on the character
list of `s`: splits at every occurrence of `sep`; the result is never
empty. -/
def pySplitChar (sep : Char) : List Char → List Char → List String
  | [], acc => [String.mk acc.reverse]
  | c :: cs, acc =>
      if c = sep then String.mk acc.reverse :: pySplitChar sep cs []
      else pySplitChar sep cs (c :: acc)

/-- Python `s.split(sep)` for a one-character separator. -/
def pySplit (s : String) (sep : Char) : List String := pySplitChar sep s.data []

/-- Whitespace stripped by Python's `float(str)` before parsing. -/
def pyIsSpace (c : Char) : Bool :=
  c = ' ' || c = '\t' || c = '\n' || c = '\r' || c = '\x0b' || c = '\x0c'

/-- Digits of a decimal literal read into a natural number. -/
def digitsToNat (ds : List Char) : Nat :=
  ds.foldl (fun n c => 10 * n + (c.toNat - 48)) 0

/-- Core of Python `float(str)` on a stripped character list: an optional
sign, then `digits`, `digits.digits` or `.digits`, optionally followed by a
decimal exponent.  `none` models a raised `ValueError`.  (`inf`, `nan` and
digit-group underscores are not modelled; no claim involves them.) -/
def pyFloatCore (cs0 : List Char) : Option ℚ :=
  let signAndRest : ℚ × List Char :=
    match cs0 with
    | '+' :: t => (1, t)
    | '-' :: t => (-1, t)
    | t => (1, t)
  let sign := signAndRest.1
  let cs1 := signAndRest.2
  let ip := cs1.takeWhile Char.isDigit
  let cs2 := cs1.dropWhile Char.isDigit
  let fpRest : List Char × List Char :=
    match cs2 with
    | '.' :: t => (t.takeWhile Char.isDigit, t.dropWhile Char.isDigit)
    | t => ([], t)
  let fp := fpRest.1
  let cs3 := fpRest.2
  if ip.isEmpty && fp.isEmpty then none
  else
    let mant : ℚ := (digitsToNat ip : ℚ) + (digitsToNat fp : ℚ) / ((10 : ℚ) ^ fp.length)
    match cs3 with
    | [] => some (sign * mant)
    | e :: t =>
        if e = 'e' || e = 'E' then
          let esignAndRest : Int × List Char :=
            match t with
            | '+' :: u => (1, u)
            | '-' :: u => (-1, u)
            | u => (1, u)
          let ed := esignAndRest.2.takeWhile Char.isDigit
          let rest := esignAndRest.2.dropWhile Char.isDigit
          if ed.isEmpty || !rest.isEmpty then none
          else some (sign * mant * (10 : ℚ) ^ (esignAndRest.1 * (digitsToNat ed : Int)))
        else none

/-- Python `float(str)`: strip surrounding whitespace, then parse a decimal
literal; `none` models a raised `ValueError`. -/
def pyFloat (s : String) : Option ℚ :=
  pyFloatCore (((s.data.dropWhile pyIsSpace).reverse.dropWhile pyIsSpace).reverse)

/-! ## The fetch layer: `_get_next_data` -/

/-- A `<script>` element of the fetched HTML document, as seen by
BeautifulSoup: its `id` attribute (if any) and its `.string` content
(`none` when the tag does not have exactly one string child). -/
structure ScriptTag where
  id : Option String
  string : Option String
deriving Repr

/-- The parsed HTML document, reduced to what `_get_next_data` inspects:
its script tags in document order. -/
structure SoupDoc where
  scripts : List ScriptTag
deriving Repr

/-- BeautifulSoup's `soup.find('script', id='__NEXT_DATA__')`: the first
script tag whose id attribute is `__NEXT_DATA__`. -/
def findNextDataScript (doc : SoupDoc) : Option ScriptTag :=
  doc.scripts.find? (fun t => t.id == some "__NEXT_DATA__")

/-- Outcome of one `session.get(url, ...)` call: either the request raised
(connection error, timeout, ...) or a response with a status code and a
parsed body. -/
inductive HttpEvent where
  | exn
  | resp (status : Nat) (body : SoupDoc)

/-- What one run of `_get_next_data` did: the returned value, the durations
passed to `time.sleep` in order, and how many GET requests were issued. -/
structure FetchResult where
  data : Option Json
  sleeps : List Nat
  requests : Nat
deriving Repr

/-- Prefix a fetch outcome with one spent attempt: one more request and a
leading sleep of `d` seconds. -/
def fetchStep (d : Nat) (r : FetchResult) : FetchResult :=
  ⟨r.data, d :: r.sleeps, r.requests + 1⟩

/-- The retry loop of `_get_next_data`, from attempt number `attempt` with
`remaining` loop iterations left.  `loads` models `json.loads` (`none`
models a raised decode error) and `net` gives the outcome of the GET issued
on each attempt.  Mirrors the source: a 200 response returns the decoded
blob, or `None` when the script tag is missing or its string is falsy (a
decode error is caught by the blanket `except`, which sleeps 2s and moves
to the next attempt); a 429 response sleeps `(attempt+1)*5` seconds and
retries; any other status returns `None` at once; a request exception
sleeps 2s and retries. -/
def getNextDataGo (loads : String → Option Json) (net : Nat → HttpEvent) :
    Nat → Nat → FetchResult
  | _, 0 => ⟨none, [], 0⟩
  | attempt, remaining + 1 =>
    match net attempt with
    | .exn => fetchStep 2 (getNextDataGo loads net (attempt + 1) remaining)
    | .resp status body =>
        if status = 200 then
          match findNextDataScript body with
          | some tag =>
              match tag.string with
              | some s =>
                  if s = "" then ⟨none, [], 1⟩
                  else
                    match loads s with
                    | some j => ⟨some j, [], 1⟩
                    | none => fetchStep 2 (getNextDataGo loads net (attempt + 1) remaining)
              | none => ⟨none, [], 1⟩
          | none => ⟨none, [], 1⟩
        else if status = 429 then
          fetchStep ((attempt + 1) * 5) (getNextDataGo loads net (attempt + 1) remaining)
        else ⟨none, [], 1⟩

/-- The source's `_get_next_data`: up to `max_retries = 3` attempts starting
at attempt 0. -/
def get_next_data (loads : String → Option Json) (net : Nat → HttpEvent) : FetchResult :=
  getNextDataGo loads net 0 3

/-! ## The listing normalizer: `search_restaurants` -/

/-- One flat restaurant record appended to `results` by
`search_restaurants`. -/
structure RestaurantRecord where
  name : Json
  rating : ℚ
  distance : Json
  menu_url : String
deriving Repr

/-- The rating computation of `search_restaurants`:
`float(raw_rating.split(' ')[0])` with `ValueError`/`IndexError` defaulted
to `0.0`.  On a non-string value, `.split` raises `AttributeError`, which
the narrow `except (ValueError, IndexError)` does not catch. -/
def parseRating (raw : Json) : Except PyErr ℚ :=
  match raw with
  | .str s =>
      match (pySplit s ' ').head? with
      | some tok => .ok ((pyFloat tok).getD 0)
      | none => .ok 0
  | _ => .error (.attributeError "object has no attribute split")

/-- The navigation chain of `search_restaurants`:
`json_data.get('props', {}).get('initialState', {}).get('home', {})
.get('feed', {}).get('results', {}).get('data', [])`. -/
def navListing (j : Json) : Except PyErr Json := do
  let a ← pyGetD j "props" (.obj [])
  let b ← pyGetD a "initialState" (.obj [])
  let c ← pyGetD b "home" (.obj [])
  let d ← pyGetD c "feed" (.obj [])
  let e ← pyGetD d "results" (.obj [])
  pyGetD e "data" (.arr [])

/-- The URL-extraction slice of the per-block code:
`block.get('data', {}).get('partner-card.on-tap', {}).get('action', {})
.get('parameters', {}).get('restaurant_href')` (a bare `.get` defaults to
`None`). -/
def blockHref (block : Json) : Except PyErr Json := do
  let data ← pyGetD block "data" (.obj [])
  let onTap ← pyGetD data "partner-card.on-tap" (.obj [])
  let action ← pyGetD onTap "action" (.obj [])
  let params ← pyGetD action "parameters" (.obj [])
  pyGetD params "restaurant_href" .null

/-- The per-block body of the listing loop: skip blocks whose
`rooTemplateId` does not contain `partner-card`, read name, rating,
distance and the on-tap href, drop blocks rated below `min_rating`, and
emit a record only when the href is truthy. -/
def processBlock (min_rating : ℚ) (block : Json) : Except PyErr (Option RestaurantRecord) := do
  let tmpl ← pyGetD block "rooTemplateId" (.str "")
  let isCard ← pyInStr "partner-card" tmpl
  if isCard then
    let data ← pyGetD block "data" (.obj [])
    let name ← pyGetD data "partner-name.content" (.str "Unknown")
    let rawRating ← pyGetD data "partner-rating.content" (.str "0")
    let rating ← parseRating rawRating
    if rating < min_rating then
      pure none
    else
      let dist ← pyGetD data "distance-presentational.content" (.str "-")
      let onTap ← pyGetD data "partner-card.on-tap" (.obj [])
      let action ← pyGetD onTap "action" (.obj [])
      let params ← pyGetD action "parameters" (.obj [])
      let href ← pyGetD params "restaurant_href" .null
      if pyTruthy href then
        pure (some ⟨name, rating, dist, "https://deliveroo.it" ++ pyStr href⟩)
      else
        pure none
  else
    pure none

/-- One step of the inner loop over a section's blocks: append the record
produced by `processBlock`, if any. -/
def blockStep (min_rating : ℚ) (acc : List RestaurantRecord) (block : Json) :
    Except PyErr (List RestaurantRecord) := do
  match ← processBlock min_rating block with
  | some r => pure (acc ++ [r])
  | none => pure acc

/-- One step of the outer loop over the feed's sections:
`blocks = section.get('blocks', [])`, then iterate the blocks. -/
def sectionStep (min_rating : ℚ) (acc : List RestaurantRecord) (sect : Json) :
    Except PyErr (List RestaurantRecord) := do
  let blocks ← pyGetD sect "blocks" (.arr [])
  let blockList ← pyIter blocks
  blockList.foldlM (blockStep min_rating) acc

/-- The `try` body of `search_restaurants`: navigate to the feed and run the
two nested loops, collecting `results`. -/
def searchBody (min_rating : ℚ) (j : Json) : Except PyErr (List RestaurantRecord) := do
  let feed ← navListing j
  let sections ← pyIter feed
  sections.foldlM (sectionStep min_rating) []

/-- Message returned by `search_restaurants` when `_get_next_data` yields a
falsy value. -/
def searchFetchErrorMsg : String := "Error: Could not fetch data from Deliveroo. Check the URL."

/-- Message returned by `search_restaurants` when `results` ends up empty. -/
def noRestaurantsMsg : String :=
  "No restaurants found. The page structure might have changed or the location is empty."

/-- Result of `search_restaurants`: one of its error/empty-result message
strings, or the record list it serializes with `json.dumps`. -/
inductive SearchOutcome where
  | errorMsg (s : String)
  | records (rs : List RestaurantRecord)
deriving Repr

/-- The post-fetch logic of `search_restaurants` applied to the value
returned by `_get_next_data`: the `if not json_data` guard, the `try` body
with its `except Exception` handler, and the `if not results` guard. -/
def searchFromData (min_rating : ℚ) (jd : Option Json) : SearchOutcome :=
  match jd with
  | none => .errorMsg searchFetchErrorMsg
  | some j =>
      if pyTruthy j then
        match searchBody min_rating j with
        | .error e => .errorMsg ("Error parsing data: " ++ pyErrStr e)
        | .ok [] => .errorMsg noRestaurantsMsg
        | .ok rs => .records rs
      else .errorMsg searchFetchErrorMsg

/-- The source's `search_restaurants`, composed with the fetch layer. -/
def search_restaurants (loads : String → Option Json) (net : Nat → HttpEvent)
    (min_rating : ℚ) : SearchOutcome :=
  searchFromData min_rating (get_next_data loads net).data

/-! ## The menu normalizer: `get_restaurant_menu` -/

/-- One menu entry appended by `get_restaurant_menu`:
`{"item": item.get('name'), "description": item.get('description'),
"price": item.get('price', {}).get('formatted', '?')}`. -/
structure MenuItemRecord where
  item : Json
  description : Json
  price : Json
deriving Repr

/-- The navigation chain of `get_restaurant_menu`:
`json_data['props']['initialState']['menuPage']['menu']` followed by
`menu_obj['metas']['root']` — subscripts, so a missing key raises
`KeyError`. -/
def menuNav (j : Json) : Except PyErr Json := do
  let a ← pySubscript j "props"
  let b ← pySubscript a "initialState"
  let c ← pySubscript b "menuPage"
  let menu ← pySubscript c "menu"
  let metas ← pySubscript menu "metas"
  pySubscript metas "root"

/-- Python values usable as dict keys; a list or dict key raises
`TypeError: unhashable type`. -/
def pyHashable : Json → Bool
  | .arr _ => false
  | .obj _ => false
  | _ => true

/-- Lookup in an association list with `Json` keys under Python `==`
(first match; the construction below never produces duplicate keys). -/
def assocGet : List (Json × Json) → Json → Option Json
  | [], _ => none
  | e :: rest, k => if Json.beq e.1 k then some e.2 else assocGet rest k

/-- Insertion into an association list with `Json` keys, mirroring Python
dict assignment: overwrite in place if the key is present, else append. -/
def assocSet : List (Json × Json) → Json → Json → List (Json × Json)
  | [], k, v => [(k, v)]
  | e :: rest, k, v =>
      if Json.beq e.1 k then (e.1, v) :: rest
      else e :: assocSet rest k v

/-- The dict comprehension
`{cat['id']: cat['name'] for cat in raw_categories}`. -/
def buildCategoryMap (cats : List Json) : Except PyErr (List (Json × Json)) :=
  cats.foldlM
    (fun m cat => do
      let i ← pySubscript cat "id"
      let n ← pySubscript cat "name"
      if pyHashable i then pure (assocSet m i n)
      else .error (.typeError "unhashable type"))
    []

/-- The per-item computation of the menu loop: read `categoryId` (`None`
when absent), resolve the category name through `category_map.get(cat_id,
"Other")`, and build the appended record.  An unhashable `cat_id` makes the
`.get` raise, and an unhashable `cat_name` makes the later
`cat_name not in organized_menu` test raise. -/
def itemInfo (catMap : List (Json × Json)) (item : Json) :
    Except PyErr (Json × MenuItemRecord) := do
  let catId ← pyGetD item "categoryId" .null
  if pyHashable catId then
    let catName := (assocGet catMap catId).getD (.str "Other")
    if pyHashable catName then
      let nm ← pyGetD item "name" .null
      let desc ← pyGetD item "description" .null
      let priceObj ← pyGetD item "price" (.obj [])
      let priceF ← pyGetD priceObj "formatted" (.str "?")
      pure (catName, ⟨nm, desc, priceF⟩)
    else .error (.typeError "unhashable type")
  else .error (.typeError "unhashable type")

/-- Append a menu record to its category bucket in `organized_menu`,
mirroring Python dict semantics: extend the bucket in place when the key is
already present (first-encounter position kept), else append a new bucket at
the end. -/
def bucketAdd : List (Json × List MenuItemRecord) → Json → MenuItemRecord →
    List (Json × List MenuItemRecord)
  | [], k, v => [(k, [v])]
  | e :: rest, k, v =>
      if Json.beq e.1 k then (e.1, e.2 ++ [v]) :: rest
      else e :: bucketAdd rest k v

/-- The menu loop `for item in raw_items: ...` building `organized_menu`. -/
def organizeItems (catMap : List (Json × Json)) (items : List Json) :
    Except PyErr (List (Json × List MenuItemRecord)) :=
  items.foldlM
    (fun m item => do
      let p ← itemInfo catMap item
      pure (bucketAdd m p.1 p.2))
    []

/-- The `try` body of `get_restaurant_menu`: navigate to the menu root,
read `items` and `categories`, build the category lookup and group the
items. -/
def menuBody (j : Json) : Except PyErr (List (Json × List MenuItemRecord)) := do
  let root ← menuNav j
  let rawItems ← pyGetD root "items" (.arr [])
  let rawCats ← pyGetD root "categories" (.arr [])
  let cats ← pyIter rawCats
  let catMap ← buildCategoryMap cats
  let items ← pyIter rawItems
  organizeItems catMap items

/-- Message returned by `get_restaurant_menu` when `_get_next_data` yields
a falsy value. -/
def menuFetchErrorMsg : String := "Error: Could not load menu."

/-- Message returned by `get_restaurant_menu` when the `try` body raises
`KeyError`. -/
def menuStructMsg : String :=
  "Error: Menu structure not found (Restaurant might be closed or page changed)."

/-- Result of `get_restaurant_menu`: one of its error message strings, or
the organized menu it serializes with `json.dumps`. -/
inductive MenuOutcome where
  | errorMsg (s : String)
  | menu (m : List (Json × List MenuItemRecord))
deriving Repr

/-- The post-fetch logic of `get_restaurant_menu` applied to the value
returned by `_get_next_data`: the `if not json_data` guard, then the `try`
body with its `except KeyError` and `except Exception` handlers. -/
def menuFromData (jd : Option Json) : MenuOutcome :=
  match jd with
  | none => .errorMsg menuFetchErrorMsg
  | some j =>
      if pyTruthy j then
        match menuBody j with
        | .ok m => .menu m
        | .error (.keyError _) => .errorMsg menuStructMsg
        | .error e => .errorMsg ("Error parsing menu: " ++ pyErrStr e)
      else .errorMsg menuFetchErrorMsg

/-- The source's `get_restaurant_menu`, composed with the fetch layer (the
unconditional `time.sleep(1.5)` throttle does not affect the result). -/
def get_restaurant_menu (loads : String → Option Json) (net : Nat → HttpEvent) : MenuOutcome :=
  menuFromData (get_next_data loads net).data

/-! ## Concrete documents and oracles used by witnesses and counterexamples -/

/-- Example on-tap structure holding a restaurant href. -/
def exOnTap : Json :=
  .obj [("action", .obj [("parameters", .obj [("restaurant_href", .str "/menu/123")])])]

/-- Example partner-card block.  Its rating string `"-"` fails to parse, so
the parsed rating is the default `0.0`. -/
def exBlock1 : Json :=
  .obj [("rooTemplateId", .str "partner-card-large"),
        ("data", .obj [
          ("partner-name.content", .str "Pizzeria Roma"),
          ("partner-rating.content", .str "-"),
          ("distance-presentational.content", .str "1.2 km"),
          ("partner-card.on-tap", exOnTap)])]

/-- Wrap feed sections in the listing navigation chain. -/
def listingDocOf (sections : List Json) : Json :=
  .obj [("props", .obj [("initialState", .obj [("home", .obj [("feed",
    .obj [("results", .obj [("data", .arr sections)])])])])])]

/-- Example listing document with a single partner-card block. -/
def exDoc1 : Json := listingDocOf [.obj [("blocks", .arr [exBlock1])]]

/-- Wrap a menu root in the menu navigation chain. -/
def menuDocOf (root : Json) : Json :=
  .obj [("props", .obj [("initialState", .obj [("menuPage", .obj [("menu",
    .obj [("metas", .obj [("root", root)])])])])])]

/-- Example menu document: one resolvable category and one item without a
`categoryId` (grouped under `Other`). -/
def exMenuDoc : Json := menuDocOf (.obj [
    ("categories", .arr [.obj [("id", .str "c1"), ("name", .str "Pizze")]]),
    ("items", .arr [
      .obj [("categoryId", .str "c1"), ("name", .str "Margherita"),
            ("description", .str "Pomodoro, mozzarella"),
            ("price", .obj [("formatted", .str "6.50 eur")])],
      .obj [("name", .str "Acqua")]])])

/-- Menu document whose first category entry lacks an `id` field, so the
dict comprehension raises `KeyError` after navigation succeeded. -/
def exMenuDocBadCat : Json := menuDocOf (.obj [
    ("categories", .arr [.obj []]),
    ("items", .arr [])])

/-- A `json.loads` oracle decoding the marker blob `BLOB1` to `exDoc1` and
`BLOB2` to `exMenuDoc`. -/
def exLoads : String → Option Json :=
  fun s => if s = "BLOB1" then some exDoc1 else if s = "BLOB2" then some exMenuDoc else none

/-- Network oracle: 429 on the first attempt, then a 200 carrying the
`BLOB1` script. -/
def exNet429 : Nat → HttpEvent := fun i =>
  if i = 0 then .resp 429 ⟨[]⟩
  else .resp 200 ⟨[⟨some "__NEXT_DATA__", some "BLOB1"⟩]⟩

/-- Network oracle: always 403. -/
def exNet403 : Nat → HttpEvent := fun _ => .resp 403 ⟨[]⟩

/-- Network oracle: always a 200 carrying the `BLOB2` script. -/
def exNet200 : Nat → HttpEvent := fun _ => .resp 200 ⟨[⟨some "__NEXT_DATA__", some "BLOB2"⟩]⟩

/-- A `json.loads` oracle decoding the marker blob `EMPTY` to the empty
object (a falsy but successfully decoded document). -/
def exLoadsEmpty : String → Option Json := fun s => if s = "EMPTY" then some (.obj []) else none

/-- Network oracle: always a 200 carrying the `EMPTY` script. -/
def exNetEmpty : Nat → HttpEvent := fun _ => .resp 200 ⟨[⟨some "__NEXT_DATA__", some "EMPTY"⟩]⟩

/-- A `json.loads` oracle decoding the marker blob `BADCAT` to
`exMenuDocBadCat`. -/
def exLoadsBadCat : String → Option Json :=
  fun s => if s = "BADCAT" then some exMenuDocBadCat else none

/-- Network oracle: always a 200 carrying the `BADCAT` script. -/
def exNetBadCat : Nat → HttpEvent := fun _ => .resp 200 ⟨[⟨some "__NEXT_DATA__", some "BADCAT"⟩]⟩

/-! ## Statement-side helpers (paths, grouping predicates) -/

/-- Does the document lack a key along the path?  True exactly when, walking
the keys in order, some step finds a dict that does not carry the next key
(values along the way before that step being present dict entries). -/
def keyMissingAlong : Json → List String → Bool
  | _, [] => false
  | .obj entries, k :: ks =>
      match entries.find? (fun e => e.1 == k) with
      | none => true
      | some e => keyMissingAlong e.2 ks
  | _, _ :: _ => false

/-- The key path navigated by `search_restaurants`. -/
def listingKeys : List String := ["props", "initialState", "home", "feed", "results", "data"]

/-- The key path navigated by `get_restaurant_menu`. -/
def menuKeys : List String := ["props", "initialState", "menuPage", "menu", "metas", "root"]

/-- A chain of Python subscripts along a key path. -/
def subChain (j : Json) : List String → Except PyErr Json
  | [] => .ok j
  | k :: ks => do subChain (← pySubscript j k) ks

/-- A chain of defaulted `.get` calls along a key path: intermediate
defaults are empty dicts, the final default is an empty list (the shape of
the chain in `search_restaurants`). -/
def getChainDflt (j : Json) : List String → Except PyErr Json
  | [] => .ok j
  | [k] => pyGetD j k (.arr [])
  | k :: ks => do getChainDflt (← pyGetD j k (.obj [])) ks

/-- First-encounter order of a list of keys: the list with later duplicates
(under Python `==`) removed. -/
def firstEncounters (ks : List Json) : List Json :=
  ks.foldl (fun acc k => if acc.any (fun a => Json.beq a k) then acc else acc ++ [k]) []

/-- Grouping a list of (category name, record) pairs with `bucketAdd`,
starting from the empty dict — the loop of `get_restaurant_menu` once each
item's name and record are known. -/
def groupPairs (pairs : List (Json × MenuItemRecord)) : List (Json × List MenuItemRecord) :=
  pairs.foldl (fun m p => bucketAdd m p.1 p.2) []

/-- Lookup of a bucket by category name under Python `==`. -/
def bucketGet : List (Json × List MenuItemRecord) → Json → Option (List MenuItemRecord)
  | [], _ => none
  | e :: rest, k => if Json.beq e.1 k then some e.2 else bucketGet rest k

/-- Total number of records across all buckets. -/
def totalItems (m : List (Json × List MenuItemRecord)) : Nat :=
  (m.map (fun e => e.2.length)).sum

/-- The category map built from `exMenuDoc`. -/
def exCatMap : List (Json × Json) := [(.str "c1", .str "Pizze")]

/-- The item list of `exMenuDoc`. -/
def exItems : List Json :=
  [.obj [("categoryId", .str "c1"), ("name", .str "Margherita"),
         ("description", .str "Pomodoro, mozzarella"),
         ("price", .obj [("formatted", .str "6.50 eur")])],
   .obj [("name", .str "Acqua")]]

/-- The (category name, record) pairs produced from `exItems` under
`exCatMap`. -/
def exPairs : List (Json × MenuItemRecord) :=
  [(.str "Pizze", ⟨.str "Margherita", .str "Pomodoro, mozzarella", .str "6.50 eur"⟩),
   (.str "Other", ⟨.str "Acqua", .null, .str "?"⟩)]

/-! ## Helper lemmas about the retry loop -/

theorem getNextDataGo_exn {loads : String → Option Json} {net : Nat → HttpEvent} {a : Nat}
    (r : Nat) (h : net a = .exn) :
    getNextDataGo loads net a (r + 1) = fetchStep 2 (getNextDataGo loads net (a + 1) r) := by
  simp [getNextDataGo, h]

theorem getNextDataGo_429 {loads : String → Option Json} {net : Nat → HttpEvent} {a : Nat}
    {body : SoupDoc} (r : Nat) (h : net a = .resp 429 body) :
    getNextDataGo loads net a (r + 1) =
      fetchStep ((a + 1) * 5) (getNextDataGo loads net (a + 1) r) := by
  simp [getNextDataGo, h]

theorem getNextDataGo_other {loads : String → Option Json} {net : Nat → HttpEvent} {a : Nat}
    {s : Nat} {body : SoupDoc} (r : Nat) (h : net a = .resp s body)
    (h200 : s ≠ 200) (h429 : s ≠ 429) :
    getNextDataGo loads net a (r + 1) = ⟨none, [], 1⟩ := by
  simp [getNextDataGo, h, h200, h429]

theorem getNextDataGo_200_ok {loads : String → Option Json} {net : Nat → HttpEvent} {a : Nat}
    {body : SoupDoc} {tag : ScriptTag} {s : String} {j : Json} (r : Nat)
    (h : net a = .resp 200 body) (hf : findNextDataScript body = some tag)
    (hs : tag.string = some s) (hne : s ≠ "") (hl : loads s = some j) :
    getNextDataGo loads net a (r + 1) = ⟨some j, [], 1⟩ := by
  simp [getNextDataGo, h, hf, hs, hne, hl]

theorem getNextDataGo_200_noscript {loads : String → Option Json} {net : Nat → HttpEvent}
    {a : Nat} {body : SoupDoc} (r : Nat) (h : net a = .resp 200 body)
    (hf : findNextDataScript body = none) :
    getNextDataGo loads net a (r + 1) = ⟨none, [], 1⟩ := by
  simp [getNextDataGo, h, hf]

theorem getNextDataGo_200_nostring {loads : String → Option Json} {net : Nat → HttpEvent}
    {a : Nat} {body : SoupDoc} {tag : ScriptTag} (r : Nat) (h : net a = .resp 200 body)
    (hf : findNextDataScript body = some tag) (hs : tag.string = none) :
    getNextDataGo loads net a (r + 1) = ⟨none, [], 1⟩ := by
  simp [getNextDataGo, h, hf, hs]

theorem getNextDataGo_200_emptystring {loads : String → Option Json} {net : Nat → HttpEvent}
    {a : Nat} {body : SoupDoc} {tag : ScriptTag} (r : Nat) (h : net a = .resp 200 body)
    (hf : findNextDataScript body = some tag) (hs : tag.string = some "") :
    getNextDataGo loads net a (r + 1) = ⟨none, [], 1⟩ := by
  simp [getNextDataGo, h, hf, hs]

theorem getNextDataGo_200_badjson {loads : String → Option Json} {net : Nat → HttpEvent}
    {a : Nat} {body : SoupDoc} {tag : ScriptTag} {s : String} (r : Nat)
    (h : net a = .resp 200 body) (hf : findNextDataScript body = some tag)
    (hs : tag.string = some s) (hne : s ≠ "") (hl : loads s = none) :
    getNextDataGo loads net a (r + 1) = fetchStep 2 (getNextDataGo loads net (a + 1) r) := by
  simp [getNextDataGo, h, hf, hs, hne, hl]

theorem getNextDataGo_requests_le (loads : String → Option Json) (net : Nat → HttpEvent) :
    ∀ r a, (getNextDataGo loads net a r).requests ≤ r
  | 0, a => by simp [getNextDataGo]
  | r + 1, a => by
    have ih := getNextDataGo_requests_le loads net r (a + 1)
    cases h : net a with
    | exn =>
        rw [getNextDataGo_exn r h]
        simpa [fetchStep] using ih
    | resp s body =>
        by_cases h200 : s = 200
        · subst h200
          cases hf : findNextDataScript body with
          | none => rw [getNextDataGo_200_noscript r h hf]; simp
          | some tag =>
              cases hs : tag.string with
              | none => rw [getNextDataGo_200_nostring r h hf hs]; simp
              | some str =>
                  by_cases hne : str = ""
                  · subst hne
                    rw [getNextDataGo_200_emptystring r h hf hs]; simp
                  · cases hl : loads str with
                    | none =>
                        rw [getNextDataGo_200_badjson r h hf hs hne hl]
                        simpa [fetchStep] using ih
                    | some j =>
                        rw [getNextDataGo_200_ok r h hf hs hne hl]; simp
        · by_cases h429 : s = 429
          · subst h429
            rw [getNextDataGo_429 r h]
            simpa [fetchStep] using ih
          · rw [getNextDataGo_other r h h200 h429]; simp

/-- C1: for every URL fetch, `_get_next_data` performs at most 3 attempts;
a 429 at attempt `i` contributes a sleep of `(i+1)*5` seconds before the
next attempt; if the first `k` attempts see 429 and attempt `k` is a 200
whose `__NEXT_DATA__` script decodes to `j`, the call returns `j` (having
slept `5, 10, ...` as demanded); and three 429 responses exhaust the budget
and return `None` after sleeping `5, 10, 15` seconds. -/
theorem claim1_retry_policy (loads : String → Option Json) (net : Nat → HttpEvent) :
    (get_next_data loads net).requests ≤ 3
    ∧ (∀ k, k < 3 → (∀ i, i < k → ∃ b, net i = .resp 429 b) →
        ∀ body tag s j, net k = .resp 200 body → findNextDataScript body = some tag →
          tag.string = some s → s ≠ "" → loads s = some j →
          (get_next_data loads net).data = some j
          ∧ (get_next_data loads net).sleeps = (List.range k).map (fun i => (i + 1) * 5)
          ∧ (get_next_data loads net).requests = k + 1)
    ∧ ((∀ i, i < 3 → ∃ b, net i = .resp 429 b) →
        get_next_data loads net = ⟨none, [5, 10, 15], 3⟩)
    ∧ (∀ a r body, net a = .resp 429 body →
        getNextDataGo loads net a (r + 1) =
          fetchStep ((a + 1) * 5) (getNextDataGo loads net (a + 1) r)) := by
  refine ⟨getNextDataGo_requests_le loads net 3 0, ?_, ?_, fun a r body h => getNextDataGo_429 r h⟩
  · intro k hk h429s body tag s j hk200 hf hs hne hl
    interval_cases k
    · rw [get_next_data, getNextDataGo_200_ok 2 hk200 hf hs hne hl]
      simp
    · obtain ⟨b0, hb0⟩ := h429s 0 (by omega)
      rw [get_next_data, getNextDataGo_429 2 hb0, getNextDataGo_200_ok 1 hk200 hf hs hne hl]
      simp [fetchStep, List.range_succ]
    · obtain ⟨b0, hb0⟩ := h429s 0 (by omega)
      obtain ⟨b1, hb1⟩ := h429s 1 (by omega)
      rw [get_next_data, getNextDataGo_429 2 hb0, getNextDataGo_429 1 hb1,
        getNextDataGo_200_ok 0 hk200 hf hs hne hl]
      simp [fetchStep, List.range_succ]
  · intro h429s
    obtain ⟨b0, hb0⟩ := h429s 0 (by omega)
    obtain ⟨b1, hb1⟩ := h429s 1 (by omega)
    obtain ⟨b2, hb2⟩ := h429s 2 (by omega)
    rw [get_next_data, getNextDataGo_429 2 hb0, getNextDataGo_429 1 hb1, getNextDataGo_429 0 hb2]
    simp [fetchStep, getNextDataGo]

/-- Witness for C1 at a concrete run: a 429 on attempt 0 followed by a 200
carrying a decodable blob on attempt 1 returns the decoded blob after
sleeping 5 seconds. -/
theorem claim1_retry_policy_witness :
    (get_next_data exLoads exNet429).data = some exDoc1
    ∧ (get_next_data exLoads exNet429).sleeps = (List.range 1).map (fun i => (i + 1) * 5)
    ∧ (get_next_data exLoads exNet429).requests = 1 + 1 :=
  (claim1_retry_policy exLoads exNet429).2.1 1 (by decide)
    (fun i hi => ⟨⟨[]⟩, by interval_cases i; rfl⟩)
    ⟨[⟨some "__NEXT_DATA__", some "BLOB1"⟩]⟩ ⟨some "__NEXT_DATA__", some "BLOB1"⟩ "BLOB1" exDoc1
    rfl rfl rfl (by decide) rfl

/-- C2: a first response whose status is neither 200 nor 429 (for instance
403) makes `_get_next_data` return `None` at once: one single request, no
retries, no sleeps. -/
theorem claim2_blocked_no_retry (loads : String → Option Json) (net : Nat → HttpEvent)
    (s : Nat) (body : SoupDoc) (h : net 0 = .resp s body) (h200 : s ≠ 200) (h429 : s ≠ 429) :
    get_next_data loads net = ⟨none, [], 1⟩ := by
  rw [get_next_data, getNextDataGo_other 2 h h200 h429]

/-- Witness for C2: a 403 response returns `None` with exactly one request
issued and no sleeps. -/
theorem claim2_blocked_no_retry_witness :
    get_next_data exLoads exNet403 = ⟨none, [], 1⟩ :=
  claim2_blocked_no_retry exLoads exNet403 403 ⟨[]⟩ rfl (by decide) (by decide)

/-- C3: for a fixed 200 response body presented on every attempt: if the
body holds a `__NEXT_DATA__` script with non-empty text that `json.loads`
decodes to `j`, the fetch returns exactly `j`; if the script is missing,
its string is absent or empty, or its text fails to decode, the fetch
returns `None`.  No exception escapes: the embedded `get_next_data` is a
total function into `FetchResult`. -/
theorem claim3_extraction (loads : String → Option Json) (net : Nat → HttpEvent)
    (body : SoupDoc) (hconst : ∀ i, net i = .resp 200 body) :
    (∀ tag s j, findNextDataScript body = some tag → tag.string = some s → s ≠ "" →
        loads s = some j → (get_next_data loads net).data = some j)
    ∧ (findNextDataScript body = none → (get_next_data loads net).data = none)
    ∧ (∀ tag, findNextDataScript body = some tag → tag.string = none →
        (get_next_data loads net).data = none)
    ∧ (∀ tag, findNextDataScript body = some tag → tag.string = some "" →
        (get_next_data loads net).data = none)
    ∧ (∀ tag s, findNextDataScript body = some tag → tag.string = some s → s ≠ "" →
        loads s = none → (get_next_data loads net).data = none) := by
  refine ⟨?_, ?_, ?_, ?_, ?_⟩
  · intro tag s j hf hs hne hl
    rw [get_next_data, getNextDataGo_200_ok 2 (hconst 0) hf hs hne hl]
  · intro hf
    rw [get_next_data, getNextDataGo_200_noscript 2 (hconst 0) hf]
  · intro tag hf hs
    rw [get_next_data, getNextDataGo_200_nostring 2 (hconst 0) hf hs]
  · intro tag hf hs
    rw [get_next_data, getNextDataGo_200_emptystring 2 (hconst 0) hf hs]
  · intro tag s hf hs hne hl
    rw [get_next_data, getNextDataGo_200_badjson 2 (hconst 0) hf hs hne hl,
      getNextDataGo_200_badjson 1 (hconst 1) hf hs hne hl,
      getNextDataGo_200_badjson 0 (hconst 2) hf hs hne hl]
    rfl

/-- Witness for C3: a constant 200 response carrying the `BLOB2` script
makes the fetch return the decoded menu document. -/
theorem claim3_extraction_witness :
    (get_next_data exLoads exNet200).data = some exMenuDoc :=
  (claim3_extraction exLoads exNet200 ⟨[⟨some "__NEXT_DATA__", some "BLOB2"⟩]⟩
      (fun _ => rfl)).1
    ⟨some "__NEXT_DATA__", some "BLOB2"⟩ "BLOB2" exMenuDoc rfl rfl (by decide) rfl

@[simp] theorem exceptBind_ok {α β : Type} (a : α) (f : α → Except PyErr β) :
    (Except.ok a >>= f) = f a := rfl

@[simp] theorem exceptBind_error {α β : Type} (e : PyErr) (f : α → Except PyErr β) :
    ((Except.error e : Except PyErr α) >>= f) = .error e := rfl

theorem navListing_eq_chain (j : Json) : navListing j = getChainDflt j listingKeys := rfl

theorem getChainDflt_obj_empty : ∀ ks : List String, ks ≠ [] →
    getChainDflt (Json.obj []) ks = .ok (.arr [])
  | [], h => absurd rfl h
  | [k], _ => by simp [getChainDflt, pyGetD]
  | k :: k2 :: rest, _ => by
    have ih := getChainDflt_obj_empty (k2 :: rest) (by simp)
    simp [getChainDflt, pyGetD, ih]

theorem getChainDflt_missing : ∀ (ks : List String) (j : Json), ks ≠ [] →
    keyMissingAlong j ks = true → getChainDflt j ks = .ok (.arr [])
  | [], _, h, _ => absurd rfl h
  | [k], j, _, hmiss => by
    cases j <;> simp [keyMissingAlong] at hmiss
    next entries =>
      cases hf : entries.find? (fun e => e.1 == k) with
      | none => simp [getChainDflt, pyGetD, hf]
      | some e => simp [hf, keyMissingAlong] at hmiss
  | k :: k2 :: rest, j, _, hmiss => by
    cases j <;> simp [keyMissingAlong] at hmiss
    next entries =>
      cases hf : entries.find? (fun e => e.1 == k) with
      | none =>
          have := getChainDflt_obj_empty (k2 :: rest) (by simp)
          simp [getChainDflt, pyGetD, hf, this]
      | some e =>
          rw [hf] at hmiss
          have ih := getChainDflt_missing (k2 :: rest) e.2 (by simp) hmiss
          simp [getChainDflt, pyGetD, hf, ih]

theorem searchBody_of_missing (q : ℚ) (j : Json)
    (hmiss : keyMissingAlong j listingKeys = true) : searchBody q j = .ok [] := by
  have h := getChainDflt_missing listingKeys j (by simp [listingKeys]) hmiss
  rw [← navListing_eq_chain] at h
  simp [searchBody, h, pyIter]
  rfl

/-- C4 (amended): for a truthy decoded listing document, a key missing
along the navigation path yields the empty record list and the
"No restaurants found" message; more generally, whenever the loop completes
with no record collected, that message is returned. -/
theorem claim4_missing_keys (q : ℚ) (j : Json) :
    (pyTruthy j = true → keyMissingAlong j listingKeys = true →
      searchFromData q (some j) = .errorMsg noRestaurantsMsg)
    ∧ (pyTruthy j = true → searchBody q j = .ok [] →
      searchFromData q (some j) = .errorMsg noRestaurantsMsg) := by
  have h2 : pyTruthy j = true → searchBody q j = .ok [] →
      searchFromData q (some j) = .errorMsg noRestaurantsMsg := by
    intro ht hb
    simp [searchFromData, ht, hb]
  exact ⟨fun ht hm => h2 ht (searchBody_of_missing q j hm), h2⟩

/-- Counterexample to C4 as stated: the empty object lacks the key `props`,
yet `search_restaurants` returns the fetch-error message (the falsy decoded
document is treated as a fetch failure), not the "No restaurants found"
message. -/
theorem claim4_counterexample :
    keyMissingAlong (.obj []) listingKeys = true
    ∧ search_restaurants exLoadsEmpty exNetEmpty 0 = .errorMsg searchFetchErrorMsg
    ∧ searchFetchErrorMsg ≠ noRestaurantsMsg :=
  ⟨rfl, rfl, by decide⟩

/-- Witness for the amended C4: a truthy document whose `props` entry is an
empty dict produces the "No restaurants found" message. -/
theorem claim4_missing_keys_witness :
    searchFromData 0 (some (.obj [("props", .obj [])])) = .errorMsg noRestaurantsMsg :=
  (claim4_missing_keys 0 (.obj [("props", .obj [])])).1 rfl rfl

theorem processBlock_some (q : ℚ) (block : Json) (r : RestaurantRecord)
    (h : processBlock q block = .ok (some r)) :
    ∃ href, blockHref block = .ok href ∧ pyTruthy href = true
      ∧ r.menu_url = "https://deliveroo.it" ++ pyStr href ∧ q ≤ r.rating := by
  unfold processBlock at h
  cases h1 : pyGetD block "rooTemplateId" (.str "") with
  | error e => rw [h1] at h; simp at h
  | ok tmpl =>
  rw [h1, exceptBind_ok] at h
  cases h2 : pyInStr "partner-card" tmpl with
  | error e => rw [h2] at h; simp at h
  | ok isCard =>
  rw [h2, exceptBind_ok] at h
  cases isCard with
  | false => exact absurd (Option.some.injEq .. ▸ Except.ok.inj h) (by simp)
  | true =>
  rw [if_pos rfl] at h
  cases h3 : pyGetD block "data" (.obj []) with
  | error e => rw [h3] at h; simp at h
  | ok data =>
  rw [h3, exceptBind_ok] at h
  cases h4 : pyGetD data "partner-name.content" (.str "Unknown") with
  | error e => rw [h4] at h; simp at h
  | ok name =>
  rw [h4, exceptBind_ok] at h
  cases h5 : pyGetD data "partner-rating.content" (.str "0") with
  | error e => rw [h5] at h; simp at h
  | ok rawRating =>
  rw [h5, exceptBind_ok] at h
  cases h6 : parseRating rawRating with
  | error e => rw [h6] at h; simp at h
  | ok rating =>
  rw [h6, exceptBind_ok] at h
  by_cases hq : rating < q
  · rw [if_pos hq] at h
    exact absurd (Except.ok.inj h) (by simp)
  · rw [if_neg hq] at h
    cases h7 : pyGetD data "distance-presentational.content" (.str "-") with
    | error e => rw [h7] at h; simp at h
    | ok dist =>
    rw [h7, exceptBind_ok] at h
    cases h8 : pyGetD data "partner-card.on-tap" (.obj []) with
    | error e => rw [h8] at h; simp at h
    | ok onTap =>
    rw [h8, exceptBind_ok] at h
    cases h9 : pyGetD onTap "action" (.obj []) with
    | error e => rw [h9] at h; simp at h
    | ok action =>
    rw [h9, exceptBind_ok] at h
    cases h10 : pyGetD action "parameters" (.obj []) with
    | error e => rw [h10] at h; simp at h
    | ok params =>
    rw [h10, exceptBind_ok] at h
    cases h11 : pyGetD params "restaurant_href" .null with
    | error e => rw [h11] at h; simp at h
    | ok href =>
    rw [h11, exceptBind_ok] at h
    by_cases htr : pyTruthy href = true
    · rw [if_pos htr] at h
      have hr : (⟨name, rating, dist, "https://deliveroo.it" ++ pyStr href⟩ : RestaurantRecord) = r :=
        Option.some.inj (Except.ok.inj h)
      subst hr
      exact ⟨href, by simp [blockHref, h3, h8, h9, h10, h11], htr, rfl, not_lt.mp hq⟩
    · rw [if_neg htr] at h
      exact absurd (Except.ok.inj h) (by simp)

theorem blockFold_mem (q : ℚ) : ∀ (blocks : List Json) (acc rs : List RestaurantRecord),
    List.foldlM (blockStep q) acc blocks = .ok rs →
    ∀ r ∈ rs, r ∈ acc ∨ ∃ block, processBlock q block = .ok (some r)
  | [], acc, rs, h, r, hr => by
    simp [List.foldlM, pure, Except.pure] at h
    subst h
    exact Or.inl hr
  | b :: bs, acc, rs, h, r, hr => by
    rw [List.foldlM_cons] at h
    cases hb : blockStep q acc b with
    | error e => rw [hb] at h; simp at h
    | ok acc' =>
      rw [hb, exceptBind_ok] at h
      rcases blockFold_mem q bs acc' rs h r hr with hmem | hex
      · unfold blockStep at hb
        cases hpb : processBlock q b with
        | error e => rw [hpb] at hb; simp at hb
        | ok res =>
          rw [hpb, exceptBind_ok] at hb
          cases res with
          | none =>
            have : acc = acc' := Except.ok.inj hb
            subst this
            exact Or.inl hmem
          | some r' =>
            have : acc ++ [r'] = acc' := Except.ok.inj hb
            subst this
            rcases List.mem_append.mp hmem with h1 | h2
            · exact Or.inl h1
            · have : r = r' := by simpa using h2
              subst this
              exact Or.inr ⟨b, hpb⟩
      · exact Or.inr hex

theorem sectionFold_mem (q : ℚ) : ∀ (sections : List Json) (acc rs : List RestaurantRecord),
    List.foldlM (sectionStep q) acc sections = .ok rs →
    ∀ r ∈ rs, r ∈ acc ∨ ∃ block, processBlock q block = .ok (some r)
  | [], acc, rs, h, r, hr => by
    simp [List.foldlM, pure, Except.pure] at h
    subst h
    exact Or.inl hr
  | sect :: rest, acc, rs, h, r, hr => by
    rw [List.foldlM_cons] at h
    cases hs : sectionStep q acc sect with
    | error e => rw [hs] at h; simp at h
    | ok acc' =>
      rw [hs, exceptBind_ok] at h
      rcases sectionFold_mem q rest acc' rs h r hr with hmem | hex
      · unfold sectionStep at hs
        cases hblocks : pyGetD sect "blocks" (.arr []) with
        | error e => rw [hblocks] at hs; simp at hs
        | ok blocks =>
          rw [hblocks, exceptBind_ok] at hs
          cases hit : pyIter blocks with
          | error e => rw [hit] at hs; simp at hs
          | ok blockList =>
            rw [hit, exceptBind_ok] at hs
            exact blockFold_mem q blockList acc acc' hs r hmem
      · exact Or.inr hex

theorem searchBody_mem (q : ℚ) (j : Json) (rs : List RestaurantRecord)
    (h : searchBody q j = .ok rs) :
    ∀ r ∈ rs, ∃ block, processBlock q block = .ok (some r) := by
  intro r hr
  unfold searchBody at h
  cases hnav : navListing j with
  | error e => rw [hnav] at h; simp at h
  | ok feed =>
    rw [hnav, exceptBind_ok] at h
    cases hit : pyIter feed with
    | error e => rw [hit] at h; simp at h
    | ok sections =>
      rw [hit, exceptBind_ok] at h
      rcases sectionFold_mem q sections [] rs h r hr with hmem | hex
      · simp at hmem
      · exact hex

/-- C5: every record emitted by `search_restaurants` has a rating at least
`min_rating` and a `menu_url` equal to the fixed origin
`https://deliveroo.it` followed by the `restaurant_href` found (truthy)
under the block's on-tap action parameters; a block whose href is absent or
falsy produces no record. -/
theorem claim5_record_invariants :
    (∀ (q : ℚ) (j : Json) (rs : List RestaurantRecord), searchBody q j = .ok rs →
        ∀ r ∈ rs, q ≤ r.rating
          ∧ ∃ href, pyTruthy href = true ∧ r.menu_url = "https://deliveroo.it" ++ pyStr href)
    ∧ (∀ (q : ℚ) (block : Json) (r : RestaurantRecord), processBlock q block = .ok (some r) →
        ∃ href, blockHref block = .ok href ∧ pyTruthy href = true
          ∧ r.menu_url = "https://deliveroo.it" ++ pyStr href ∧ q ≤ r.rating)
    ∧ (∀ (q : ℚ) (block : Json) (href : Json) (r : RestaurantRecord),
        blockHref block = .ok href → pyTruthy href = false →
        processBlock q block ≠ .ok (some r)) := by
  refine ⟨?_, processBlock_some, ?_⟩
  · intro q j rs h r hr
    obtain ⟨block, hb⟩ := searchBody_mem q j rs h r hr
    obtain ⟨href, _, htr, hurl, hrat⟩ := processBlock_some q block r hb
    exact ⟨hrat, href, htr, hurl⟩
  · intro q block href r hhref hfalsy hcontra
    obtain ⟨href', hhref', htr', _, _⟩ := processBlock_some q block r hcontra
    rw [hhref] at hhref'
    have : href = href' := Except.ok.inj hhref'
    subst this
    rw [hfalsy] at htr'
    exact Bool.false_ne_true htr'

/-- Witness for C5 at the example listing document: the single emitted
record respects the rating bound and carries the recomposed absolute
menu URL. -/
theorem claim5_record_invariants_witness :
    (0 : ℚ) ≤ (RestaurantRecord.mk (.str "Pizzeria Roma") 0 (.str "1.2 km")
        "https://deliveroo.it/menu/123").rating
    ∧ ∃ href, pyTruthy href = true
        ∧ (RestaurantRecord.mk (.str "Pizzeria Roma") 0 (.str "1.2 km")
            "https://deliveroo.it/menu/123").menu_url = "https://deliveroo.it" ++ pyStr href :=
  claim5_record_invariants.1 0 exDoc1
    [⟨.str "Pizzeria Roma", 0, .str "1.2 km", "https://deliveroo.it/menu/123"⟩] rfl
    ⟨.str "Pizzeria Roma", 0, .str "1.2 km", "https://deliveroo.it/menu/123"⟩ (by simp)

theorem pySplitChar_head (sep : Char) : ∀ (cs acc : List Char),
    (pySplitChar sep cs acc).head? =
      some (String.mk (acc.reverse ++ cs.takeWhile (fun c => c != sep)))
  | [], acc => by simp [pySplitChar]
  | c :: cs, acc => by
    by_cases h : c = sep
    · subst h
      simp [pySplitChar, List.takeWhile]
    · have ih := pySplitChar_head sep cs (c :: acc)
      have hb : (c != sep) = true := bne_iff_ne.mpr h
      rw [pySplitChar, if_neg h, ih]
      simp [List.takeWhile, hb]

theorem parseRating_str (s : String) :
    parseRating (.str s) =
      .ok ((pyFloat (String.mk (s.data.takeWhile (fun c => c != ' ')))).getD 0) := by
  have h := pySplitChar_head ' ' s.data []
  simp only [parseRating, pySplit]
  rw [h]
  simp

example : parseRating (.str "4.5 su 5") = .ok (9/2) := by
  rw [parseRating_str]
  have h1 : String.mk ("4.5 su 5".data.takeWhile (fun c => c != ' ')) = "4.5" := rfl
  rw [h1]
  have h2 : pyFloat "4.5" = some (9/2) := by
    simp [pyFloat, pyFloatCore, pyIsSpace, digitsToNat]
    norm_num
  rw [h2]
  rfl

example : parseRating (.str "") = .ok 0 := rfl
example : parseRating (.str "su 5") = .ok 0 := rfl

mutual
theorem Json.beq_iff : ∀ a b : Json, (Json.beq a b = true) ↔ a = b
  | .null, .null => by simp [Json.beq]
  | .bool x, .bool y => by simp [Json.beq]
  | .num x, .num y => by simp [Json.beq]
  | .str x, .str y => by simp [Json.beq]
  | .arr xs, .arr ys => by simp [Json.beq, Json.beqList_iff xs ys]
  | .obj xs, .obj ys => by simp [Json.beq, Json.beqEntries_iff xs ys]
  | .null, .bool _ => by simp [Json.beq]
  | .null, .num _ => by simp [Json.beq]
  | .null, .str _ => by simp [Json.beq]
  | .null, .arr _ => by simp [Json.beq]
  | .null, .obj _ => by simp [Json.beq]
  | .bool _, .null => by simp [Json.beq]
  | .bool _, .num _ => by simp [Json.beq]
  | .bool _, .str _ => by simp [Json.beq]
  | .bool _, .arr _ => by simp [Json.beq]
  | .bool _, .obj _ => by simp [Json.beq]
  | .num _, .null => by simp [Json.beq]
  | .num _, .bool _ => by simp [Json.beq]
  | .num _, .str _ => by simp [Json.beq]
  | .num _, .arr _ => by simp [Json.beq]
  | .num _, .obj _ => by simp [Json.beq]
  | .str _, .null => by simp [Json.beq]
  | .str _, .bool _ => by simp [Json.beq]
  | .str _, .num _ => by simp [Json.beq]
  | .str _, .arr _ => by simp [Json.beq]
  | .str _, .obj _ => by simp [Json.beq]
  | .arr _, .null => by simp [Json.beq]
  | .arr _, .bool _ => by simp [Json.beq]
  | .arr _, .num _ => by simp [Json.beq]
  | .arr _, .str _ => by simp [Json.beq]
  | .arr _, .obj _ => by simp [Json.beq]
  | .obj _, .null => by simp [Json.beq]
  | .obj _, .bool _ => by simp [Json.beq]
  | .obj _, .num _ => by simp [Json.beq]
  | .obj _, .str _ => by simp [Json.beq]
  | .obj _, .arr _ => by simp [Json.beq]
theorem Json.beqList_iff : ∀ xs ys : List Json, (Json.beqList xs ys = true) ↔ xs = ys
  | [], [] => by simp [Json.beqList]
  | [], _ :: _ => by simp [Json.beqList]
  | _ :: _, [] => by simp [Json.beqList]
  | x :: xs, y :: ys => by
    simp [Json.beqList, Json.beq_iff x y, Json.beqList_iff xs ys]
theorem Json.beqEntries_iff :
    ∀ xs ys : List (String × Json), (Json.beqEntries xs ys = true) ↔ xs = ys
  | [], [] => by simp [Json.beqEntries]
  | [], _ :: _ => by simp [Json.beqEntries]
  | _ :: _, [] => by simp [Json.beqEntries]
  | (k, x) :: xs, (l, y) :: ys => by
    simp [Json.beqEntries, Json.beq_iff x y, Json.beqEntries_iff xs ys, Prod.ext_iff,
      and_assoc]
end

theorem Json.beq_refl (a : Json) : Json.beq a a = true := (Json.beq_iff a a).mpr rfl

theorem Json.beq_eq_false_iff (a b : Json) : (Json.beq a b = false) ↔ a ≠ b := by
  rw [← Bool.not_eq_true, not_iff_not]
  exact Json.beq_iff a b

theorem totalItems_bucketAdd : ∀ (m : List (Json × List MenuItemRecord)) (k : Json)
    (v : MenuItemRecord), totalItems (bucketAdd m k v) = totalItems m + 1
  | [], k, v => by simp [bucketAdd, totalItems]
  | e :: rest, k, v => by
    by_cases h : Json.beq e.1 k = true
    · simp [bucketAdd, h, totalItems]
      omega
    · rw [bucketAdd, if_neg (by simp [h])]
      have ih := totalItems_bucketAdd rest k v
      simp [totalItems] at ih ⊢
      omega

theorem totalItems_fold : ∀ (pairs : List (Json × MenuItemRecord))
    (m : List (Json × List MenuItemRecord)),
    totalItems (pairs.foldl (fun m p => bucketAdd m p.1 p.2) m) = totalItems m + pairs.length
  | [], m => by simp
  | p :: ps, m => by
    rw [List.foldl_cons]
    rw [totalItems_fold ps (bucketAdd m p.1 p.2), totalItems_bucketAdd]
    simp
    omega

theorem bucketAdd_keys : ∀ (m : List (Json × List MenuItemRecord)) (k : Json)
    (v : MenuItemRecord),
    (bucketAdd m k v).map (fun e => e.1) =
      if m.any (fun e => Json.beq e.1 k) then m.map (fun e => e.1)
      else m.map (fun e => e.1) ++ [k]
  | [], k, v => by simp [bucketAdd]
  | e :: rest, k, v => by
    by_cases h : Json.beq e.1 k = true
    · simp [bucketAdd, h]
    · rw [bucketAdd, if_neg (by simp [h])]
      have ih := bucketAdd_keys rest k v
      by_cases hr : rest.any (fun e => Json.beq e.1 k) = true
      · simp [hr, h, ih]
      · simp only [Bool.not_eq_true] at h hr
        simp [h, hr, ih]

theorem bucketAdd_pairwise : ∀ (m : List (Json × List MenuItemRecord)) (k : Json)
    (v : MenuItemRecord),
    m.Pairwise (fun a b => Json.beq a.1 b.1 = false) →
    (bucketAdd m k v).Pairwise (fun a b => Json.beq a.1 b.1 = false)
  | [], k, v, _ => by simp [bucketAdd]
  | e :: rest, k, v, hm => by
    rw [List.pairwise_cons] at hm
    obtain ⟨he, hrest⟩ := hm
    by_cases h : Json.beq e.1 k = true
    · rw [bucketAdd, if_pos h, List.pairwise_cons]
      exact ⟨he, hrest⟩
    · rw [bucketAdd, if_neg (by simp [h]), List.pairwise_cons]
      refine ⟨?_, bucketAdd_pairwise rest k v hrest⟩
      intro b hb
      have hbk : b.1 ∈ (bucketAdd rest k v).map (fun e => e.1) := List.mem_map_of_mem _ hb
      rw [bucketAdd_keys] at hbk
      by_cases hr : rest.any (fun e => Json.beq e.1 k) = true
      · rw [if_pos hr] at hbk
        obtain ⟨b', hb', hb'1⟩ := List.mem_map.mp hbk
        rw [← hb'1]
        exact he b' hb'
      · rw [if_neg hr, List.mem_append] at hbk
        rcases hbk with hbk | hbk
        · obtain ⟨b', hb', hb'1⟩ := List.mem_map.mp hbk
          rw [← hb'1]
          exact he b' hb'
        · have : b.1 = k := by simpa using hbk
          rw [this]
          simpa using h

theorem groupPairs_pairwise (pairs : List (Json × MenuItemRecord)) :
    (groupPairs pairs).Pairwise (fun a b => Json.beq a.1 b.1 = false) := by
  have hgen : ∀ (ps : List (Json × MenuItemRecord)) (m : List (Json × List MenuItemRecord)),
      m.Pairwise (fun a b => Json.beq a.1 b.1 = false) →
      (ps.foldl (fun m p => bucketAdd m p.1 p.2) m).Pairwise
        (fun a b => Json.beq a.1 b.1 = false) := by
    intro ps
    induction ps with
    | nil => intro m hm; simpa using hm
    | cons p ps ih =>
        intro m hm
        rw [List.foldl_cons]
        exact ih (bucketAdd m p.1 p.2) (bucketAdd_pairwise m p.1 p.2 hm)
  exact hgen pairs [] (by simp)

theorem fold_keys : ∀ (pairs : List (Json × MenuItemRecord))
    (m : List (Json × List MenuItemRecord)),
    (pairs.foldl (fun m p => bucketAdd m p.1 p.2) m).map (fun e => e.1) =
      (pairs.map (fun p => p.1)).foldl
        (fun acc k => if acc.any (fun a => Json.beq a k) then acc else acc ++ [k])
        (m.map (fun e => e.1))
  | [], m => by simp
  | p :: ps, m => by
    rw [List.foldl_cons, List.map_cons, List.foldl_cons, fold_keys ps (bucketAdd m p.1 p.2),
      bucketAdd_keys]
    have hany : ∀ (l : List (Json × List MenuItemRecord)) (k : Json),
        (l.map (fun e => e.1)).any (fun a => Json.beq a k) = l.any (fun e => Json.beq e.1 k) := by
      intro l k
      induction l with
      | nil => rfl
      | cons e rest ih => simp [ih]
    rw [hany]

theorem groupPairs_keys (pairs : List (Json × MenuItemRecord)) :
    (groupPairs pairs).map (fun e => e.1) = firstEncounters (pairs.map (fun p => p.1)) := by
  rw [groupPairs, fold_keys, firstEncounters]
  rfl

theorem bucketGet_bucketAdd_same : ∀ (m : List (Json × List MenuItemRecord)) (k : Json)
    (v : MenuItemRecord),
    bucketGet (bucketAdd m k v) k = some ((bucketGet m k).getD [] ++ [v])
  | [], k, v => by simp [bucketAdd, bucketGet, Json.beq_refl]
  | e :: rest, k, v => by
    by_cases h : Json.beq e.1 k = true
    · simp [bucketAdd, bucketGet, h]
    · rw [bucketAdd, if_neg (by simp [h]), bucketGet, if_neg (by simp [h])]
      rw [bucketGet_bucketAdd_same rest k v]
      rw [bucketGet, if_neg (by simp [h])]

theorem bucketGet_bucketAdd_other : ∀ (m : List (Json × List MenuItemRecord)) (k k' : Json)
    (v : MenuItemRecord), Json.beq k k' = false →
    bucketGet (bucketAdd m k v) k' = bucketGet m k'
  | [], k, k', v, h => by simp [bucketAdd, bucketGet, h]
  | e :: rest, k, k', v, h => by
    by_cases he : Json.beq e.1 k = true
    · have hek : e.1 = k := (Json.beq_iff e.1 k).mp he
      have : Json.beq e.1 k' = false := by rw [hek]; exact h
      simp [bucketAdd, he, bucketGet, this]
    · rw [bucketAdd, if_neg (by simp [he])]
      by_cases he' : Json.beq e.1 k' = true
      · simp [bucketGet, he']
      · rw [bucketGet, if_neg (by simp [he']), bucketGet, if_neg (by simp [he'])]
        exact bucketGet_bucketAdd_other rest k k' v h

theorem bucketGet_fold : ∀ (pairs : List (Json × MenuItemRecord))
    (m : List (Json × List MenuItemRecord)) (k : Json),
    bucketGet (pairs.foldl (fun m p => bucketAdd m p.1 p.2) m) k =
      match bucketGet m k with
      | some b => some (b ++ (pairs.filter (fun p => Json.beq p.1 k)).map (fun p => p.2))
      | none =>
          if pairs.any (fun p => Json.beq p.1 k)
          then some ((pairs.filter (fun p => Json.beq p.1 k)).map (fun p => p.2))
          else none
  | [], m, k => by
    cases h : bucketGet m k <;> simp [h]
  | p :: ps, m, k => by
    rw [List.foldl_cons]
    rw [bucketGet_fold ps (bucketAdd m p.1 p.2) k]
    by_cases hp : Json.beq p.1 k = true
    · have hpk : p.1 = k := (Json.beq_iff p.1 k).mp hp
      rw [← hpk, bucketGet_bucketAdd_same]
      cases hm : bucketGet m p.1 with
      | some b => simp [hm, hp, hpk, List.filter_cons, Json.beq_refl]
      | none => simp [hm, hp, hpk, List.filter_cons, Json.beq_refl]
    · have hp' : Json.beq p.1 k = false := by simpa using hp
      rw [bucketGet_bucketAdd_other m p.1 k p.2 hp']
      cases hm : bucketGet m k with
      | some b => simp [hm, List.filter_cons, hp']
      | none =>
          simp only [hm, List.filter_cons, hp', List.any_cons, Bool.false_or]
          simp [hp']

theorem bucketGet_of_mem : ∀ (m : List (Json × List MenuItemRecord)) (k : Json)
    (bucket : List MenuItemRecord),
    m.Pairwise (fun a b => Json.beq a.1 b.1 = false) → (k, bucket) ∈ m →
    bucketGet m k = some bucket
  | [], k, bucket, _, hmem => by simp at hmem
  | e :: rest, k, bucket, hpw, hmem => by
    rw [List.pairwise_cons] at hpw
    obtain ⟨he, hrest⟩ := hpw
    rcases List.mem_cons.mp hmem with heq | hmem'
    · rw [← heq]
      simp [bucketGet, Json.beq_refl]
    · have hek : Json.beq e.1 k = false := he (k, bucket) hmem'
      rw [bucketGet, if_neg (by simp [hek])]
      exact bucketGet_of_mem rest k bucket hrest hmem'

theorem mapM_ok_length {α β : Type} (f : α → Except PyErr β) :
    ∀ (l : List α) (out : List β), l.mapM f = .ok out → out.length = l.length
  | [], out, h => by
    have h' : ([] : List β) = out := Except.ok.inj h
    rw [← h']
    rfl
  | a :: as, out, h => by
    rw [List.mapM_cons] at h
    cases hf : f a with
    | error e => rw [hf] at h; simp [pure, Except.pure] at h
    | ok b =>
      rw [hf, exceptBind_ok] at h
      cases hrest : List.mapM f as with
      | error e => rw [hrest] at h; simp [pure, Except.pure] at h
      | ok bs =>
        rw [hrest, exceptBind_ok] at h
        have : b :: bs = out := Except.ok.inj h
        rw [← this]
        simp [mapM_ok_length f as bs hrest]

theorem organizeItems_fold (catMap : List (Json × Json)) :
    ∀ (items : List Json) (pairs : List (Json × MenuItemRecord))
      (m : List (Json × List MenuItemRecord)),
    items.mapM (itemInfo catMap) = .ok pairs →
    items.foldlM
        (fun m item => do
          let p ← itemInfo catMap item
          pure (bucketAdd m p.1 p.2))
        m
      = .ok (pairs.foldl (fun m p => bucketAdd m p.1 p.2) m)
  | [], pairs, m, h => by
    have h' : ([] : List (Json × MenuItemRecord)) = pairs := Except.ok.inj h
    rw [← h']
    rfl
  | it :: its, pairs, m, h => by
    rw [List.mapM_cons] at h
    cases hf : itemInfo catMap it with
    | error e => rw [hf] at h; simp [pure, Except.pure] at h
    | ok p =>
      rw [hf, exceptBind_ok] at h
      cases hrest : List.mapM (itemInfo catMap) its with
      | error e => rw [hrest] at h; simp [pure, Except.pure] at h
      | ok ps =>
        rw [hrest, exceptBind_ok] at h
        have hps : p :: ps = pairs := Except.ok.inj h
        rw [← hps, List.foldlM_cons, hf, exceptBind_ok, List.foldl_cons]
        exact organizeItems_fold catMap its ps (bucketAdd m p.1 p.2) hrest

theorem organizeItems_eq (catMap : List (Json × Json)) (items : List Json)
    (pairs : List (Json × MenuItemRecord)) (h : items.mapM (itemInfo catMap) = .ok pairs) :
    organizeItems catMap items = .ok (groupPairs pairs) :=
  organizeItems_fold catMap items pairs [] h

theorem itemInfo_catName (catMap : List (Json × Json)) (item : Json) (p : Json × MenuItemRecord)
    (h : itemInfo catMap item = .ok p) :
    ∃ cid, pyGetD item "categoryId" .null = .ok cid
      ∧ p.1 = (assocGet catMap cid).getD (.str "Other") := by
  unfold itemInfo at h
  cases h1 : pyGetD item "categoryId" .null with
  | error e => rw [h1] at h; simp at h
  | ok cid =>
    rw [h1, exceptBind_ok] at h
    refine ⟨cid, rfl, ?_⟩
    by_cases h2 : pyHashable cid = true
    · rw [if_pos h2] at h
      by_cases h3 : pyHashable ((assocGet catMap cid).getD (.str "Other")) = true
      · rw [if_pos h3] at h
        cases h4 : pyGetD item "name" .null with
        | error e => rw [h4] at h; simp at h
        | ok nm =>
          rw [h4, exceptBind_ok] at h
          cases h5 : pyGetD item "description" .null with
          | error e => rw [h5] at h; simp at h
          | ok desc =>
            rw [h5, exceptBind_ok] at h
            cases h6 : pyGetD item "price" (.obj []) with
            | error e => rw [h6] at h; simp at h
            | ok priceObj =>
              rw [h6, exceptBind_ok] at h
              cases h7 : pyGetD priceObj "formatted" (.str "?") with
              | error e => rw [h7] at h; simp at h
              | ok priceF =>
                rw [h7, exceptBind_ok] at h
                have := Except.ok.inj h
                rw [← this]
      · rw [if_neg h3] at h; simp at h
    · rw [if_neg h2] at h; simp at h

/-- C6: the rating of a block is computed by splitting the raw rating
string at the first space and parsing the leading token as a float, and any
parse failure (non-numeric or empty token) defaults to `0.0` without
raising: on every string input the computation returns a value.  For
example `"4.5 su 5"` parses to `4.5`. -/
theorem claim6_rating_parse :
    (∀ s : String, parseRating (.str s) =
        .ok ((pyFloat (String.mk (s.data.takeWhile (fun c => c != ' ')))).getD 0))
    ∧ parseRating (.str "4.5 su 5") = .ok (9 / 2)
    ∧ parseRating (.str "") = .ok 0
    ∧ parseRating (.str "su 5") = .ok 0 := by
  refine ⟨parseRating_str, ?_, rfl, rfl⟩
  rw [parseRating_str]
  have h1 : String.mk ("4.5 su 5".data.takeWhile (fun c => c != ' ')) = "4.5" := rfl
  rw [h1]
  have h2 : pyFloat "4.5" = some (9 / 2) := by
    simp [pyFloat, pyFloatCore, pyIsSpace, digitsToNat]
    norm_num
  rw [h2]
  rfl

/-- C7: whenever every item of the menu root list is processed successfully
(producing its category name and record), the built `organized_menu` is
their grouping: the total record count across buckets equals the item
count, bucket keys are pairwise distinct, bucket order is the order in
which category names are first encountered over the items in source order,
and each bucket holds exactly the records of its items in source order;
each item's category name is resolved through the id-to-name lookup with
default `"Other"`. -/
theorem claim7_menu_grouping (catMap : List (Json × Json)) (items : List Json)
    (pairs : List (Json × MenuItemRecord))
    (h : items.mapM (itemInfo catMap) = .ok pairs) :
    organizeItems catMap items = .ok (groupPairs pairs)
    ∧ totalItems (groupPairs pairs) = items.length
    ∧ (groupPairs pairs).Pairwise (fun a b => Json.beq a.1 b.1 = false)
    ∧ (groupPairs pairs).map (fun e => e.1) = firstEncounters (pairs.map (fun p => p.1))
    ∧ (∀ k bucket, (k, bucket) ∈ groupPairs pairs →
        bucket = (pairs.filter (fun p => Json.beq p.1 k)).map (fun p => p.2))
    ∧ (∀ item p, itemInfo catMap item = .ok p →
        ∃ cid, pyGetD item "categoryId" .null = .ok cid
          ∧ p.1 = (assocGet catMap cid).getD (.str "Other")) := by
  refine ⟨organizeItems_eq catMap items pairs h, ?_, groupPairs_pairwise pairs,
    groupPairs_keys pairs, ?_, itemInfo_catName catMap⟩
  · rw [groupPairs, totalItems_fold, mapM_ok_length (itemInfo catMap) items pairs h]
    simp [totalItems]
  · intro k bucket hmem
    have hget := bucketGet_of_mem (groupPairs pairs) k bucket (groupPairs_pairwise pairs) hmem
    have hf := bucketGet_fold pairs [] k
    rw [← groupPairs] at hf
    rw [hget] at hf
    by_cases hany : pairs.any (fun p => Json.beq p.1 k) = true
    · rw [if_pos hany] at hf
      simp [bucketGet] at hf
      exact hf
    · rw [if_neg hany] at hf
      simp [bucketGet] at hf

theorem claim7_menu_grouping_witness :
    organizeItems exCatMap exItems = .ok (groupPairs exPairs)
    ∧ totalItems (groupPairs exPairs) = exItems.length
    ∧ (groupPairs exPairs).Pairwise (fun a b => Json.beq a.1 b.1 = false)
    ∧ (groupPairs exPairs).map (fun e => e.1) = firstEncounters (exPairs.map (fun p => p.1))
    ∧ (∀ k bucket, (k, bucket) ∈ groupPairs exPairs →
        bucket = (exPairs.filter (fun p => Json.beq p.1 k)).map (fun p => p.2))
    ∧ (∀ item p, itemInfo exCatMap item = .ok p →
        ∃ cid, pyGetD item "categoryId" .null = .ok cid
          ∧ p.1 = (assocGet exCatMap cid).getD (.str "Other")) :=
  claim7_menu_grouping exCatMap exItems exPairs rfl

@[simp] theorem exceptBind_ok_id {α : Type} (x : Except PyErr α) :
    (x >>= fun v => (Except.ok v : Except PyErr α)) = x := by cases x <;> rfl

theorem menuNav_eq_chain (j : Json) : menuNav j = subChain j menuKeys := by
  simp [menuNav, subChain, menuKeys]

theorem subChain_missing : ∀ (ks : List String) (j : Json),
    keyMissingAlong j ks = true → ∃ k, subChain j ks = .error (.keyError k)
  | [], j, h => by simp [keyMissingAlong] at h
  | k :: ks, j, h => by
    cases j <;> simp [keyMissingAlong] at h
    next entries =>
      cases hf : entries.find? (fun e => e.1 == k) with
      | none =>
          refine ⟨k, ?_⟩
          simp [subChain, pySubscript, hf]
      | some e =>
          rw [hf] at h
          obtain ⟨k', hk'⟩ := subChain_missing ks e.2 h
          refine ⟨k', ?_⟩
          simp [subChain, pySubscript, hf, hk']

theorem menuBody_of_missing (j : Json) (hm : keyMissingAlong j menuKeys = true) :
    ∃ k, menuBody j = .error (.keyError k) := by
  obtain ⟨k, hk⟩ := subChain_missing menuKeys j hm
  rw [← menuNav_eq_chain] at hk
  exact ⟨k, by simp [menuBody, hk]⟩

/-- C8 (amended): for every truthy decoded menu document lacking a key
along `props.initialState.menuPage.menu.metas.root` (each value traversed
before the missing key being a dict), `get_restaurant_menu` returns the
distinct "Menu structure not found" message, which differs from the
fetch-failure message. -/
theorem claim8_distinct_menu_message (j : Json) (ht : pyTruthy j = true)
    (hm : keyMissingAlong j menuKeys = true) :
    menuFromData (some j) = .errorMsg menuStructMsg
    ∧ menuStructMsg ≠ menuFetchErrorMsg := by
  obtain ⟨k, hk⟩ := menuBody_of_missing j hm
  exact ⟨by simp [menuFromData, ht, hk], by decide⟩

/-- Counterexample to C8 as stated: the empty object is a decoded menu
document lacking the key `props`, yet `get_restaurant_menu` returns the
fetch-failure message (the falsy decoded document is treated as a fetch
failure), not the distinct structure message. -/
theorem claim8_counterexample :
    keyMissingAlong (.obj []) menuKeys = true
    ∧ get_restaurant_menu exLoadsEmpty exNetEmpty = .errorMsg menuFetchErrorMsg
    ∧ menuFetchErrorMsg ≠ menuStructMsg :=
  ⟨rfl, rfl, by decide⟩

/-- Witness for the amended C8: a truthy document whose `props` entry is an
empty dict produces the distinct structure message. -/
theorem claim8_distinct_menu_message_witness :
    menuFromData (some (.obj [("props", .obj [])])) = .errorMsg menuStructMsg
    ∧ menuStructMsg ≠ menuFetchErrorMsg :=
  claim8_distinct_menu_message (.obj [("props", .obj [])]) rfl rfl

/-- C9 (amended): no exception escapes the two operations (their embeddings
are total); an exception raised by the `try` body of `search_restaurants`
is returned as `"Error parsing data: "` plus the exception description,
while in `get_restaurant_menu` a `KeyError` — wherever it is raised inside
the `try` body, including during category-map construction after
navigation succeeded — produces the "Menu structure not found" message and
only the remaining exceptions produce `"Error parsing menu: "` plus the
description. -/
theorem claim9_exception_boundary :
    (∀ (q : ℚ) (j : Json) (e : PyErr), pyTruthy j = true → searchBody q j = .error e →
        searchFromData q (some j) = .errorMsg ("Error parsing data: " ++ pyErrStr e))
    ∧ (∀ (j : Json) (e : PyErr), pyTruthy j = true → menuBody j = .error e →
        menuFromData (some j) =
          match e with
          | .keyError _ => .errorMsg menuStructMsg
          | _ => .errorMsg ("Error parsing menu: " ++ pyErrStr e)) := by
  constructor
  · intro q j e ht hb
    simp [searchFromData, ht, hb]
  · intro j e ht hb
    cases e <;> simp [menuFromData, ht, hb]

/-- Counterexample to C9 as stated: in `exMenuDocBadCat` navigation
succeeds and a category entry lacking `id` raises `KeyError` during
normalization, but the operation returns the structure message, which is
not an "Error parsing ..." string. -/
theorem claim9_counterexample :
    get_restaurant_menu exLoadsBadCat exNetBadCat = .errorMsg menuStructMsg
    ∧ menuNav exMenuDocBadCat = .ok (.obj [("categories", .arr [.obj []]), ("items", .arr [])])
    ∧ charsStartWith menuStructMsg.data "Error parsing".data = false :=
  ⟨rfl, rfl, rfl⟩

/-- Witness for the amended C9: a document whose `props` value is a string
makes the listing navigation raise `AttributeError`, and the operation
returns the "Error parsing data" message carrying it. -/
theorem claim9_exception_boundary_witness :
    searchFromData 0 (some (.obj [("props", .str "x")])) =
      .errorMsg ("Error parsing data: " ++ pyErrStr (.attributeError "object has no attribute get")) :=
  claim9_exception_boundary.1 0 (.obj [("props", .str "x")])
    (.attributeError "object has no attribute get") rfl rfl

/-- C10: a decoded `__NEXT_DATA__` blob that is falsy (empty object, empty
list, null, false or 0) is treated by both operations exactly like a fetch
failure, because the result of `_get_next_data` is tested for truthiness
(`if not json_data`) rather than for absence. -/
theorem claim10_falsy_blob (q : ℚ) (j : Json) (h : pyTruthy j = false) :
    searchFromData q (some j) = .errorMsg searchFetchErrorMsg
    ∧ menuFromData (some j) = .errorMsg menuFetchErrorMsg
    ∧ searchFromData q none = .errorMsg searchFetchErrorMsg
    ∧ menuFromData none = .errorMsg menuFetchErrorMsg
    ∧ pyTruthy (.obj []) = false ∧ pyTruthy (.arr []) = false ∧ pyTruthy .null = false
    ∧ pyTruthy (.bool false) = false ∧ pyTruthy (.num 0) = false := by
  refine ⟨?_, ?_, rfl, rfl, rfl, rfl, rfl, rfl, by decide⟩
  · simp [searchFromData, h]
  · simp [menuFromData, h]

/-- Witness for C10 at the empty object. -/
theorem claim10_falsy_blob_witness :
    searchFromData 0 (some (.obj [])) = .errorMsg searchFetchErrorMsg
    ∧ menuFromData (some (.obj [])) = .errorMsg menuFetchErrorMsg
    ∧ searchFromData 0 none = .errorMsg searchFetchErrorMsg
    ∧ menuFromData none = .errorMsg menuFetchErrorMsg
    ∧ pyTruthy (.obj []) = false ∧ pyTruthy (.arr []) = false ∧ pyTruthy .null = false
    ∧ pyTruthy (.bool false) = false ∧ pyTruthy (.num 0) = false :=
  claim10_falsy_blob 0 (.obj []) rfl
